import Mathlib

/-!
Shallow embedding of `src/main.rs` of MalekiRe/wgpu-openxr-example.

The geometry layer (vectors, quaternions, column-major 4x4 matrices and the
glam operations the source calls) is modelled over the reals.  The event-loop
layer (resize handling and the per-tick body) is modelled as a state machine
over an `AppState` record; GPU-visible side effects of a tick are recorded in
order as a trace of `Action`s.
-/

namespace WgpuExample

@[ext]
structure Vec3 where
  x : ℝ
  y : ℝ
  z : ℝ

@[ext]
structure Vec4 where
  x : ℝ
  y : ℝ
  z : ℝ
  w : ℝ

/-- Quaternion, stored as in glam: x, y, z imaginary parts and w real part. -/
@[ext]
structure Quat where
  x : ℝ
  y : ℝ
  z : ℝ
  w : ℝ

/-- Column-major 4x4 matrix, stored as four columns as in glam's `Mat4`. -/
@[ext]
structure Mat4 where
  xAxis : Vec4
  yAxis : Vec4
  zAxis : Vec4
  wAxis : Vec4

/-- Three-column matrix matching glam's `Mat3`, used for the rotation part. -/
@[ext]
structure Mat3 where
  xAxis : Vec3
  yAxis : Vec3
  zAxis : Vec3

def dot3 (a b : Vec3) : ℝ :=
  a.x * b.x + a.y * b.y + a.z * b.z

def dot4 (a b : Vec4) : ℝ :=
  a.x * b.x + a.y * b.y + a.z * b.z + a.w * b.w

def cross3 (a b : Vec3) : Vec3 :=
  ⟨a.y * b.z - a.z * b.y, a.z * b.x - a.x * b.z, a.x * b.y - a.y * b.x⟩

def sub3 (a b : Vec3) : Vec3 :=
  ⟨a.x - b.x, a.y - b.y, a.z - b.z⟩

def smul3 (v : Vec3) (c : ℝ) : Vec3 :=
  ⟨v.x * c, v.y * c, v.z * c⟩

/-- glam `Vec3::normalize`: multiply by the reciprocal of the length. -/
noncomputable def normalize3 (v : Vec3) : Vec3 :=
  smul3 v (Real.sqrt (dot3 v v))⁻¹

/-- glam `Vec4::length`. -/
noncomputable def length4 (v : Vec4) : ℝ :=
  Real.sqrt (dot4 v v)

/-- Rust `f32::signum` (total on the reals: 1 for nonnegative, -1 otherwise). -/
noncomputable def signum (r : ℝ) : ℝ :=
  if 0 ≤ r then 1 else -1

/-- glam `Quat::IDENTITY`. -/
def qIdentity : Quat := ⟨0, 0, 0, 1⟩

/-- glam `Quat::from_rotation_y`: half-angle sine on y, half-angle cosine on w. -/
noncomputable def Quat.fromRotationY (angle : ℝ) : Quat :=
  ⟨0, Real.sin (angle * 0.5), 0, Real.cos (angle * 0.5)⟩

/-- glam `Mat3::from_quat` (x2 = x + x, xx = x * x2, and so on). -/
def mat3FromQuat (q : Quat) : Mat3 :=
  ⟨⟨1 - (q.y * (q.y + q.y) + q.z * (q.z + q.z)),
    q.x * (q.y + q.y) + q.w * (q.z + q.z),
    q.x * (q.z + q.z) - q.w * (q.y + q.y)⟩,
   ⟨q.x * (q.y + q.y) - q.w * (q.z + q.z),
    1 - (q.x * (q.x + q.x) + q.z * (q.z + q.z)),
    q.y * (q.z + q.z) + q.w * (q.x + q.x)⟩,
   ⟨q.x * (q.z + q.z) + q.w * (q.y + q.y),
    q.y * (q.z + q.z) - q.w * (q.x + q.x),
    1 - (q.x * (q.x + q.x) + q.y * (q.y + q.y))⟩⟩

/-- glam `Affine3A::from_scale_rotation_translation` widened to a `Mat4`
(`Mat4::from(affine)`): rotation columns scaled per axis, translation column
with homogeneous coordinate 1. -/
def from_scale_rotation_translation (s : Vec3) (r : Quat) (t : Vec3) : Mat4 :=
  ⟨⟨(mat3FromQuat r).xAxis.x * s.x, (mat3FromQuat r).xAxis.y * s.x,
    (mat3FromQuat r).xAxis.z * s.x, 0⟩,
   ⟨(mat3FromQuat r).yAxis.x * s.y, (mat3FromQuat r).yAxis.y * s.y,
    (mat3FromQuat r).yAxis.z * s.y, 0⟩,
   ⟨(mat3FromQuat r).zAxis.x * s.z, (mat3FromQuat r).zAxis.y * s.z,
    (mat3FromQuat r).zAxis.z * s.z, 0⟩,
   ⟨t.x, t.y, t.z, 1⟩⟩

/-- The per-instance transform built in `instance_poses_to_data`: scale fixed
at `Vec3::ONE`, with the pose's rotation and translation. -/
def instanceTransform (p : Vec3 × Quat) : Mat4 :=
  from_scale_rotation_translation ⟨1, 1, 1⟩ p.2 p.1

/-- glam `Mat4::from_translation`. -/
def fromTranslation (t : Vec3) : Mat4 :=
  ⟨⟨1, 0, 0, 0⟩, ⟨0, 1, 0, 0⟩, ⟨0, 0, 1, 0⟩, ⟨t.x, t.y, t.z, 1⟩⟩

/-- glam `Mat4::from_quat`. -/
def fromQuat (r : Quat) : Mat4 :=
  ⟨⟨(mat3FromQuat r).xAxis.x, (mat3FromQuat r).xAxis.y, (mat3FromQuat r).xAxis.z, 0⟩,
   ⟨(mat3FromQuat r).yAxis.x, (mat3FromQuat r).yAxis.y, (mat3FromQuat r).yAxis.z, 0⟩,
   ⟨(mat3FromQuat r).zAxis.x, (mat3FromQuat r).zAxis.y, (mat3FromQuat r).zAxis.z, 0⟩,
   ⟨0, 0, 0, 1⟩⟩

/-- glam `Mat4::from_scale`. -/
def fromScale (s : Vec3) : Mat4 :=
  ⟨⟨s.x, 0, 0, 0⟩, ⟨0, s.y, 0, 0⟩, ⟨0, 0, s.z, 0⟩, ⟨0, 0, 0, 1⟩⟩

/-- glam matrix-vector product: linear combination of the columns. -/
def Mat4.mulVec4 (m : Mat4) (v : Vec4) : Vec4 :=
  ⟨m.xAxis.x * v.x + m.yAxis.x * v.y + m.zAxis.x * v.z + m.wAxis.x * v.w,
   m.xAxis.y * v.x + m.yAxis.y * v.y + m.zAxis.y * v.z + m.wAxis.y * v.w,
   m.xAxis.z * v.x + m.yAxis.z * v.y + m.zAxis.z * v.z + m.wAxis.z * v.w,
   m.xAxis.w * v.x + m.yAxis.w * v.y + m.zAxis.w * v.z + m.wAxis.w * v.w⟩

/-- glam matrix product: each column of the result is the left matrix applied
to the corresponding column of the right matrix. -/
def Mat4.mul (a b : Mat4) : Mat4 :=
  ⟨a.mulVec4 b.xAxis, a.mulVec4 b.yAxis, a.mulVec4 b.zAxis, a.mulVec4 b.wAxis⟩

/-- glam `Mat4::determinant` (cofactor expansion, column-major entries). -/
def Mat4.det (m : Mat4) : ℝ :=
  m.xAxis.x * (m.yAxis.y * (m.zAxis.z * m.wAxis.w - m.zAxis.w * m.wAxis.z)
      - m.yAxis.z * (m.zAxis.y * m.wAxis.w - m.zAxis.w * m.wAxis.y)
      + m.yAxis.w * (m.zAxis.y * m.wAxis.z - m.zAxis.z * m.wAxis.y))
    - m.xAxis.y * (m.yAxis.x * (m.zAxis.z * m.wAxis.w - m.zAxis.w * m.wAxis.z)
      - m.yAxis.z * (m.zAxis.x * m.wAxis.w - m.zAxis.w * m.wAxis.x)
      + m.yAxis.w * (m.zAxis.x * m.wAxis.z - m.zAxis.z * m.wAxis.x))
    + m.xAxis.z * (m.yAxis.x * (m.zAxis.y * m.wAxis.w - m.zAxis.w * m.wAxis.y)
      - m.yAxis.y * (m.zAxis.x * m.wAxis.w - m.zAxis.w * m.wAxis.x)
      + m.yAxis.w * (m.zAxis.x * m.wAxis.y - m.zAxis.y * m.wAxis.x))
    - m.xAxis.w * (m.yAxis.x * (m.zAxis.y * m.wAxis.z - m.zAxis.z * m.wAxis.y)
      - m.yAxis.y * (m.zAxis.x * m.wAxis.z - m.zAxis.z * m.wAxis.x)
      + m.yAxis.z * (m.zAxis.x * m.wAxis.y - m.zAxis.y * m.wAxis.x))

/-- glam `Mat4::to_cols_array`: the 16 entries, column by column. -/
def toColsArray (m : Mat4) : List ℝ :=
  [m.xAxis.x, m.xAxis.y, m.xAxis.z, m.xAxis.w,
   m.yAxis.x, m.yAxis.y, m.yAxis.z, m.yAxis.w,
   m.zAxis.x, m.zAxis.y, m.zAxis.z, m.zAxis.w,
   m.wAxis.x, m.wAxis.y, m.wAxis.z, m.wAxis.w]

/-- Column selector for a `Mat4`. -/
def Mat4.col (m : Mat4) : Fin 4 → Vec4
  | 0 => m.xAxis
  | 1 => m.yAxis
  | 2 => m.zAxis
  | 3 => m.wAxis

/-- Component selector for a `Vec4`. -/
def Vec4.comp (v : Vec4) : Fin 4 → ℝ
  | 0 => v.x
  | 1 => v.y
  | 2 => v.z
  | 3 => v.w

/-- Modelled from the spec: the standard translation/rotation/scale
decomposition of an affine matrix (glam `Mat4::to_scale_rotation_translation`,
which the repository does not itself contain): the scale components are the
column lengths (the first carrying the determinant's sign), the translation is
the fourth column, and the rotation matrix is the per-column rescaled linear
part. -/
noncomputable def decomposeScale (m : Mat4) : Vec3 :=
  ⟨length4 m.xAxis * signum m.det, length4 m.yAxis, length4 m.zAxis⟩

/-- The translation recovered by the decomposition: the fourth column. -/
def decomposeTranslation (m : Mat4) : Vec3 :=
  ⟨m.wAxis.x, m.wAxis.y, m.wAxis.z⟩

/-- The rotation matrix recovered by the decomposition: the linear columns
multiplied by the reciprocals of the recovered scale components. -/
noncomputable def decomposeRotationMat (m : Mat4) : Mat3 :=
  ⟨smul3 ⟨m.xAxis.x, m.xAxis.y, m.xAxis.z⟩ (decomposeScale m).x⁻¹,
   smul3 ⟨m.yAxis.x, m.yAxis.y, m.yAxis.z⟩ (decomposeScale m).y⁻¹,
   smul3 ⟨m.zAxis.x, m.zAxis.y, m.zAxis.z⟩ (decomposeScale m).z⁻¹⟩

/-- Function `instance_poses_to_data` from `src/main.rs`: flat-map each pose to the
column-major array of its transform matrix. -/
def instance_poses_to_data (poses : List (Vec3 × Quat)) : List ℝ :=
  poses.flatMap fun p => toColsArray (instanceTransform p)

/-- glam `Mat4::look_to_rh`. -/
noncomputable def lookToRh (eye dir up : Vec3) : Mat4 :=
  let f := normalize3 dir
  let s := normalize3 (cross3 f up)
  let u := cross3 s f
  ⟨⟨s.x, u.x, -f.x, 0⟩,
   ⟨s.y, u.y, -f.y, 0⟩,
   ⟨s.z, u.z, -f.z, 0⟩,
   ⟨-(dot3 eye s), -(dot3 eye u), dot3 eye f, 1⟩⟩

/-- glam `Mat4::look_at_rh(eye, center, up) = look_to_rh(eye, center - eye, up)`. -/
noncomputable def lookAtRh (eye center up : Vec3) : Mat4 :=
  lookToRh eye (sub3 center eye) up

/-- glam `Mat4::perspective_rh(fov_y, aspect, z_near, z_far)`. -/
noncomputable def perspectiveRh (fovY aspect zNear zFar : ℝ) : Mat4 :=
  ⟨⟨Real.cos (0.5 * fovY) / Real.sin (0.5 * fovY) / aspect, 0, 0, 0⟩,
   ⟨0, Real.cos (0.5 * fovY) / Real.sin (0.5 * fovY), 0, 0⟩,
   ⟨0, 0, zFar / (zNear - zFar), -1⟩,
   ⟨0, 0, zFar / (zNear - zFar) * zNear, 0⟩⟩

/-- Structure `PerspectiveCamera` from `src/main.rs`. -/
structure PerspectiveCamera where
  eye : Vec3
  target : Vec3
  up : Vec3
  aspect_ratio : ℝ
  fov_y_rad : ℝ
  z_near : ℝ
  z_far : ℝ

/-- Method `PerspectiveCamera::to_view_proj_matrix`: right-handed perspective times
right-handed look-at. -/
noncomputable def PerspectiveCamera.to_view_proj_matrix (c : PerspectiveCamera) : Mat4 :=
  Mat4.mul (perspectiveRh c.fov_y_rad c.aspect_ratio c.z_near c.z_far)
    (lookAtRh c.eye c.target c.up)

/-- The three default instance poses built in `main`. -/
def defaultInstances : List (Vec3 × Quat) :=
  [(⟨0, 0, 1⟩, qIdentity), (⟨1, 0, 2⟩, qIdentity), (⟨-1, 0, 2⟩, qIdentity)]

/-- The per-tick instance mutation (`instances[0].1 = Quat::from_rotation_y(
time_since_start / PI)`): entry 0's rotation is replaced, everything else is
left alone. -/
noncomputable def updateInstances (t : ℝ) : List (Vec3 × Quat) → List (Vec3 × Quat)
  | [] => []
  | p :: rest => (p.1, Quat.fromRotationY (t / Real.pi)) :: rest

/-- The per-tick camera mutation (`camera.eye.z = time_since_start.cos() - 1.0`). -/
noncomputable def cameraAfter (t : ℝ) (c : PerspectiveCamera) : PerspectiveCamera :=
  ⟨⟨c.eye.x, c.eye.y, Real.cos t - 1⟩, c.target, c.up,
   c.aspect_ratio, c.fov_y_rad, c.z_near, c.z_far⟩

/-- A GPU texture together with its (only) view; `id` is a creation stamp that
gives the texture and its view their identity, so that "the view that existed
before the resize" is distinguishable from the newly created one. -/
structure RTexture where
  width : Nat
  height : Nat
  id : Nat

/-- Function `create_depth_texture` from `src/main.rs`: a texture at the surface
configuration's current size. -/
def create_depth_texture (width height ident : Nat) : RTexture :=
  ⟨width, height, ident⟩

/-- Function `create_render_target_texture` from `src/main.rs`: a texture at the
surface configuration's current size. -/
def create_render_target_texture (width height ident : Nat) : RTexture :=
  ⟨width, height, ident⟩

/-- The mutable state captured by the event-loop closure in `main`: the
surface configuration's size, the two derived textures, which view the blit
bind group holds, the camera and the instance list.  `nextId` is the next
fresh creation stamp. -/
structure AppState where
  configWidth : Nat
  configHeight : Nat
  depthTexture : RTexture
  renderTargetTexture : RTexture
  blitBoundViewId : Nat
  camera : PerspectiveCamera
  instances : List (Vec3 × Quat)
  nextId : Nat

/-- Startup state: surface configured at the window's size, depth and render
target created at that size, blit bind group bound to the render target's
view, camera as constructed in `main` (eye at the origin, target (0,0,1),
up +Y, aspect width/height, 90 degree vertical fov, near 0.05, far 1000). -/
noncomputable def init (w h : Nat) : AppState :=
  ⟨w, h,
   create_depth_texture w h 0,
   create_render_target_texture w h 1,
   1,
   ⟨⟨0, 0, 0⟩, ⟨0, 0, 1⟩, ⟨0, 1, 0⟩, (w : ℝ) / (h : ℝ),
    90 * (Real.pi / 180), 0.05, 1000⟩,
   defaultInstances,
   2⟩

/-- The `WindowEvent::Resized` arm of the event loop: update the surface
configuration, reconfigure, recreate the depth texture and the render target
at the new size, rebuild the blit bind group around the new render target
view, and set the camera's aspect ratio to width / height. -/
noncomputable def resize (w h : Nat) (s : AppState) : AppState :=
  ⟨w, h,
   create_depth_texture w h s.nextId,
   create_render_target_texture w h (s.nextId + 1),
   s.nextId + 1,
   ⟨s.camera.eye, s.camera.target, s.camera.up, (w : ℝ) / (h : ℝ),
    s.camera.fov_y_rad, s.camera.z_near, s.camera.z_far⟩,
   s.instances,
   s.nextId + 2⟩

/-- One observable step of the tick body, in program order. -/
inductive Action where
  | preFrameHook
  | beginScenePass (targetViewId : Nat) (depthViewId : Nat)
  | drawScene (vertexCount : Nat) (instanceCount : Nat)
  | acquireFrame
  | beginBlitPass (boundViewId : Nat)
  | drawBlit (vertexCount : Nat) (instanceCount : Nat)
  | writeCameraBuffer (data : List ℝ)
  | writeInstanceBuffer (data : List ℝ)
  | submit
  | present
  | postFrameHook

/-- Whether the event-loop closure returned normally this tick or the process
died in a panic (`.expect` on frame acquisition). -/
inductive Outcome where
  | completed
  | panicked
deriving DecidableEq

/-- Result of one redraw tick: the ordered trace of observable steps, whether
the tick completed, and the state afterwards. -/
structure TickResult where
  trace : List Action
  outcome : Outcome
  state : AppState

/-- The XR pre-frame hook call: present exactly when the program runs with an
XR state (`xr_state.as_mut().and_then(|x| x.pre_frame().unwrap())`). -/
def preHookTrace (xr : Bool) : List Action :=
  match xr with
  | true => [Action.preFrameHook]
  | false => []

/-- The XR post-frame hook call: present exactly when an XR state exists and
the pre-frame hook returned a frame state (`xr_state.as_mut().zip(
xr_frame_state)`). -/
def postHookTrace (xr : Bool) (pre : Option Unit) : List Action :=
  match xr, pre with
  | true, some _ => [Action.postFrameHook]
  | _, _ => []

/-- One redraw tick (the body run when `cleared` is true), parameterised by
whether the XR feature is active, what the pre-frame hook returned, the
elapsed time, and whether `surface.get_current_texture()` succeeds.  In
program order the body records the scene pass, acquires the presentable
frame (panicking on failure), records the blit pass, updates the camera and
writes the camera buffer, updates instance 0 and writes the instance buffer,
submits once, presents, and finally calls the post-frame hook. -/
noncomputable def tick (xr : Bool) (pre : Option Unit) (t : ℝ) (ok : Bool)
    (s : AppState) : TickResult :=
  match ok with
  | false =>
    ⟨preHookTrace xr ++
      [Action.beginScenePass s.renderTargetTexture.id s.depthTexture.id,
       Action.drawScene 3 s.instances.length,
       Action.acquireFrame],
     Outcome.panicked, s⟩
  | true =>
    ⟨preHookTrace xr ++
      [Action.beginScenePass s.renderTargetTexture.id s.depthTexture.id,
       Action.drawScene 3 s.instances.length,
       Action.acquireFrame,
       Action.beginBlitPass s.blitBoundViewId,
       Action.drawBlit 6 1,
       Action.writeCameraBuffer (toColsArray (cameraAfter t s.camera).to_view_proj_matrix),
       Action.writeInstanceBuffer (instance_poses_to_data (updateInstances t s.instances)),
       Action.submit,
       Action.present] ++
      postHookTrace xr pre,
     Outcome.completed,
     ⟨s.configWidth, s.configHeight, s.depthTexture, s.renderTargetTexture,
      s.blitBoundViewId, cameraAfter t s.camera, updateInstances t s.instances,
      s.nextId⟩⟩

/-- The states the event loop can put the closure's captured state into:
the startup state, any resize of a reachable state, and the post-state of any
tick from a reachable state. -/
inductive Reachable : AppState → Prop
  | start : ∀ w h, Reachable (init w h)
  | resized : ∀ s w h, Reachable s → Reachable (resize w h s)
  | ticked : ∀ s xr pre t ok, Reachable s → Reachable ((tick xr pre t ok s).state)

/-- Actions that record work into a render pass. -/
def isRecordAction : Action → Bool
  | Action.beginScenePass _ _ => true
  | Action.drawScene _ _ => true
  | Action.beginBlitPass _ => true
  | Action.drawBlit _ _ => true
  | _ => false

/-- Actions that enqueue a per-frame buffer write. -/
def isWriteAction : Action → Bool
  | Action.writeCameraBuffer _ => true
  | Action.writeInstanceBuffer _ => true
  | _ => false

/-- The scene-pass draw call. -/
def isSceneDraw : Action → Bool
  | Action.drawScene _ _ => true
  | _ => false

/-- The instance-buffer write. -/
def isInstanceWrite : Action → Bool
  | Action.writeInstanceBuffer _ => true
  | _ => false

/-- Actions whose relative order the per-tick control-flow claims speak
about: pass recording, buffer writes, and the queue submission. -/
def isOrderRelevant (a : Action) : Bool :=
  isRecordAction a || isWriteAction a ||
    match a with
    | Action.submit => true
    | _ => false

/-- The ordering property C3 asserts of a tick trace: every buffer write
comes strictly before every pass-recording step. -/
def writesPrecedeRecords (tr : List Action) : Prop :=
  ∀ i j : Fin tr.length, isWriteAction (tr.get i) = true →
    isRecordAction (tr.get j) = true → (i : ℕ) < (j : ℕ)

/-- Invariant of every reachable state: both derived textures are exactly the
surface configuration's size, and every live creation stamp is below the next
fresh one. -/
theorem reachable_sizes (s : AppState) (h : Reachable s) :
    s.depthTexture.width = s.configWidth ∧ s.depthTexture.height = s.configHeight ∧
    s.renderTargetTexture.width = s.configWidth ∧
    s.renderTargetTexture.height = s.configHeight ∧
    s.renderTargetTexture.id < s.nextId ∧ s.depthTexture.id < s.nextId := by
  induction h with
  | start w h =>
    simp [init, create_depth_texture, create_render_target_texture]
  | resized s w h _ _ =>
    simp [resize, create_depth_texture, create_render_target_texture]
  | ticked s xr pre t ok _ ih =>
    cases ok <;> simpa [tick] using ih

/-- C1: after any resize to a positive size (w, h) from a reachable state, the
depth texture and the render target are at size (w, h), the blit bind group is
bound to the newly created render target's view rather than the previous one,
and the camera's aspect ratio is exactly w / h; moreover every reachable state
has both derived textures at the surface configuration's size. -/
theorem resize_rebuilds_derived_targets :
    (∀ (s : AppState) (w h : Nat), Reachable s → 0 < w → 0 < h →
      (resize w h s).depthTexture.width = w ∧
      (resize w h s).depthTexture.height = h ∧
      (resize w h s).renderTargetTexture.width = w ∧
      (resize w h s).renderTargetTexture.height = h ∧
      (resize w h s).blitBoundViewId = (resize w h s).renderTargetTexture.id ∧
      (resize w h s).renderTargetTexture.id ≠ s.renderTargetTexture.id ∧
      (resize w h s).camera.aspect_ratio = (w : ℝ) / (h : ℝ)) ∧
    (∀ s : AppState, Reachable s →
      s.depthTexture.width = s.configWidth ∧
      s.depthTexture.height = s.configHeight ∧
      s.renderTargetTexture.width = s.configWidth ∧
      s.renderTargetTexture.height = s.configHeight) := by
  constructor
  · intro s w h hr _ _
    have hfresh := (reachable_sizes s hr).2.2.2.2.1
    refine ⟨rfl, rfl, rfl, rfl, rfl, ?_, rfl⟩
    simp only [resize, create_render_target_texture]
    omega
  · intro s hr
    obtain ⟨h1, h2, h3, h4, _, _⟩ := reachable_sizes s hr
    exact ⟨h1, h2, h3, h4⟩

theorem resize_rebuilds_derived_targets_witness :
    ((resize 100 200 (init 800 600)).depthTexture.width = 100 ∧
     (resize 100 200 (init 800 600)).depthTexture.height = 200 ∧
     (resize 100 200 (init 800 600)).renderTargetTexture.width = 100 ∧
     (resize 100 200 (init 800 600)).renderTargetTexture.height = 200 ∧
     (resize 100 200 (init 800 600)).blitBoundViewId =
       (resize 100 200 (init 800 600)).renderTargetTexture.id ∧
     (resize 100 200 (init 800 600)).renderTargetTexture.id ≠
       (init 800 600).renderTargetTexture.id ∧
     (resize 100 200 (init 800 600)).camera.aspect_ratio =
       ((100 : Nat) : ℝ) / ((200 : Nat) : ℝ)) ∧
    ((init 800 600).depthTexture.width = (init 800 600).configWidth ∧
     (init 800 600).depthTexture.height = (init 800 600).configHeight ∧
     (init 800 600).renderTargetTexture.width = (init 800 600).configWidth ∧
     (init 800 600).renderTargetTexture.height = (init 800 600).configHeight) :=
  ⟨resize_rebuilds_derived_targets.1 (init 800 600) 100 200
      (Reachable.start 800 600) (by decide) (by decide),
   resize_rebuilds_derived_targets.2 (init 800 600) (Reachable.start 800 600)⟩

/-- C2 counterexample: on a tick whose frame acquisition fails, the program
does crash (the closure panics), and the scene-pass draw has already been
recorded, contradicting "skips both passes, records no draws and does not
crash". -/
theorem acquire_failure_claim_counterexample :
    (tick false none 0 false (init 800 600)).outcome = Outcome.panicked ∧
    Action.drawScene 3 3 ∈ (tick false none 0 false (init 800 600)).trace := by
  constructor
  · rfl
  · simp [tick, preHookTrace, init, defaultInstances]

/-- C2 amended: on a tick whose frame acquisition fails, the program panics;
the scene pass has already been recorded by then, but no blit pass is begun,
nothing is submitted and nothing is presented. -/
theorem acquire_failure_panics (xr : Bool) (pre : Option Unit) (t : ℝ)
    (s : AppState) :
    (tick xr pre t false s).outcome = Outcome.panicked ∧
    Action.drawScene 3 s.instances.length ∈ (tick xr pre t false s).trace ∧
    (∀ v, Action.beginBlitPass v ∉ (tick xr pre t false s).trace) ∧
    Action.submit ∉ (tick xr pre t false s).trace ∧
    Action.present ∉ (tick xr pre t false s).trace := by
  cases xr <;> simp [tick, preHookTrace]

/-- C5 counterexample: with XR enabled and a pre-frame hook that returns
nothing, the tick still records the scene and blit draws, submits and
presents, contradicting "rendering for that tick is skipped entirely". -/
theorem xr_no_frame_claim_counterexample :
    Action.submit ∈ (tick true none 0 true (init 800 600)).trace ∧
    Action.present ∈ (tick true none 0 true (init 800 600)).trace ∧
    Action.drawScene 3 3 ∈ (tick true none 0 true (init 800 600)).trace ∧
    Action.drawBlit 6 1 ∈ (tick true none 0 true (init 800 600)).trace := by
  refine ⟨?_, ?_, ?_, ?_⟩ <;>
    simp [tick, preHookTrace, postHookTrace, init, defaultInstances]

/-- C5 amended: when the XR pre-frame hook returns nothing, the tick is the
same as a non-XR tick apart from the leading pre-frame hook call: both passes
are recorded, the commands are submitted and the frame is presented; only the
post-frame hook is skipped. -/
theorem xr_no_frame_still_renders (t : ℝ) (s : AppState) :
    (tick true none t true s).trace =
      Action.preFrameHook :: (tick false none t true s).trace ∧
    Action.postFrameHook ∉ (tick true none t true s).trace ∧
    Action.submit ∈ (tick true none t true s).trace ∧
    Action.present ∈ (tick true none t true s).trace := by
  refine ⟨rfl, ?_, ?_, ?_⟩ <;> simp [tick, preHookTrace, postHookTrace]

/-- C7: on every successfully acquiring tick the scene pass issues exactly
one draw call, covering 3 vertices and as many instances as the instance list
currently holds; in the default configuration that list has 3 entries. -/
theorem scene_pass_single_draw (xr : Bool) (pre : Option Unit) (t : ℝ)
    (s : AppState) (w h : Nat) :
    (tick xr pre t true s).trace.filter isSceneDraw =
      [Action.drawScene 3 s.instances.length] ∧
    (init w h).instances.length = 3 := by
  constructor
  · cases xr <;> cases pre <;>
      simp [tick, preHookTrace, postHookTrace, isSceneDraw, List.filter_append]
  · rfl

/-- C3 counterexample: on a concrete tick the camera-buffer write sits at
index 5 of the trace while the scene-pass draw sits at index 1, so the buffer
updates do not precede the recording of the passes. -/
theorem updates_before_recording_counterexample :
    ¬ writesPrecedeRecords (tick false none 0 true (init 800 600)).trace := by
  intro hcl
  have hlen : (tick false none 0 true (init 800 600)).trace.length = 9 := rfl
  have h5 : (5 : ℕ) < (tick false none 0 true (init 800 600)).trace.length := by
    omega
  have h1 : (1 : ℕ) < (tick false none 0 true (init 800 600)).trace.length := by
    omega
  have hlt := hcl ⟨5, h5⟩ ⟨1, h1⟩ rfl rfl
  have h51 : (5 : ℕ) < (1 : ℕ) := hlt
  omega

/-- C3 amended: within every successfully acquiring tick, the order-relevant
steps are, in order: the two pass recordings with their draws first, then the
camera and instance buffer writes, then the single submission — the per-frame
buffer updates happen after the passes are recorded and before submission,
not before the recording. -/
theorem recording_precedes_buffer_updates (xr : Bool) (pre : Option Unit)
    (t : ℝ) (s : AppState) :
    (tick xr pre t true s).trace.filter isOrderRelevant =
      [Action.beginScenePass s.renderTargetTexture.id s.depthTexture.id,
       Action.drawScene 3 s.instances.length,
       Action.beginBlitPass s.blitBoundViewId,
       Action.drawBlit 6 1,
       Action.writeCameraBuffer
         (toColsArray (cameraAfter t s.camera).to_view_proj_matrix),
       Action.writeInstanceBuffer
         (instance_poses_to_data (updateInstances t s.instances)),
       Action.submit] := by
  cases xr <;> cases pre <;>
    simp [tick, preHookTrace, postHookTrace, isOrderRelevant, isRecordAction,
      isWriteAction, List.filter_append]

/-- Length of the serialized instance data: 16 floats per pose. -/
theorem length_instance_poses_to_data (poses : List (Vec3 × Quat)) :
    (instance_poses_to_data poses).length = 16 * poses.length := by
  induction poses with
  | nil => rfl
  | cons p rest ih =>
    simp [instance_poses_to_data, toColsArray] at ih ⊢
    omega

/-- C8: a tick mutates only entry 0's rotation — the list length, every later
entry and entry 0's translation are untouched — and nevertheless uploads the
serialized transforms of all entries as the single instance-buffer write of
the tick, whose data covers the whole buffer (16 floats per instance). -/
theorem instance_update_and_full_upload (t : ℝ) (ps : List (Vec3 × Quat))
    (xr : Bool) (pre : Option Unit) (s : AppState) :
    (updateInstances t ps).length = ps.length ∧
    (updateInstances t ps).tail = ps.tail ∧
    (updateInstances t ps).head?.map Prod.fst = ps.head?.map Prod.fst ∧
    (tick xr pre t true s).trace.filter isInstanceWrite =
      [Action.writeInstanceBuffer
        (instance_poses_to_data (updateInstances t s.instances))] ∧
    (instance_poses_to_data (updateInstances t s.instances)).length =
      16 * s.instances.length := by
  refine ⟨?_, ?_, ?_, ?_, ?_⟩
  · cases ps <;> simp [updateInstances]
  · cases ps <;> simp [updateInstances]
  · cases ps <;> simp [updateInstances]
  · cases xr <;> cases pre <;>
      simp [tick, preHookTrace, postHookTrace, isInstanceWrite,
        List.filter_append]
  · rw [length_instance_poses_to_data]
    cases hs : s.instances <;> simp [updateInstances]

/-- Serialization unfolds one pose at a time. -/
theorem instance_poses_to_data_cons (p : Vec3 × Quat)
    (rest : List (Vec3 × Quat)) :
    instance_poses_to_data (p :: rest) =
      toColsArray (instanceTransform p) ++ instance_poses_to_data rest := by
  simp [instance_poses_to_data]

/-- Each serialized matrix block is 16 entries long. -/
theorem length_toColsArray (m : Mat4) : (toColsArray m).length = 16 := rfl

/-- The i-th 16-float block of the serialized instance data is the cols array
of the i-th pose's transform. -/
theorem instance_poses_to_data_block :
    ∀ (poses : List (Vec3 × Quat)) (i : Fin poses.length),
      ((instance_poses_to_data poses).drop (16 * (i : ℕ))).take 16 =
        toColsArray (instanceTransform (poses.get i))
  | p :: rest, ⟨0, _⟩ => by
    rw [instance_poses_to_data_cons]
    show ((toColsArray (instanceTransform p) ++
      instance_poses_to_data rest).drop (16 * 0)).take 16 = _
    rw [Nat.mul_zero, List.drop_zero]
    exact List.take_left' (length_toColsArray _)
  | p :: rest, ⟨n + 1, hn⟩ => by
    have hrest := instance_poses_to_data_block rest
      ⟨n, by simpa using Nat.lt_of_succ_lt_succ hn⟩
    rw [instance_poses_to_data_cons]
    have hdrop : (toColsArray (instanceTransform p) ++
        instance_poses_to_data rest).drop (16 * (n + 1)) =
        (instance_poses_to_data rest).drop (16 * n) := by
      have : 16 * (n + 1) = (toColsArray (instanceTransform p)).length +
          16 * n := by
        rw [length_toColsArray]; ring
      rw [this, List.drop_append]
    rw [hdrop]
    simpa using hrest

/-- C10: `instance_poses_to_data` yields 16·n floats for n poses, and its
i-th block of 16 floats is the column-major serialization of the transform of
pose i, in input order. -/
theorem instance_poses_to_data_layout (poses : List (Vec3 × Quat)) :
    (instance_poses_to_data poses).length = 16 * poses.length ∧
    ∀ i : Fin poses.length,
      ((instance_poses_to_data poses).drop (16 * (i : ℕ))).take 16 =
        toColsArray (instanceTransform (poses.get i)) :=
  ⟨length_instance_poses_to_data poses, instance_poses_to_data_block poses⟩

/-- The half-angle cosine of a 1-radian y-rotation is positive, while the
half-angle cosine of a half-turn is zero. -/
theorem fromRotationY_one_ne_pi :
    Quat.fromRotationY 1 ≠ Quat.fromRotationY Real.pi := by
  intro h
  have hw := congrArg Quat.w h
  simp only [Quat.fromRotationY] at hw
  have hpi : Real.cos (Real.pi * 0.5) = 0 := by
    rw [show Real.pi * 0.5 = Real.pi / 2 by ring]
    exact Real.cos_pi_div_two
  have hone : 0 < Real.cos ((1 : ℝ) * 0.5) := by
    apply Real.cos_pos_of_mem_Ioo
    constructor
    · have := Real.pi_gt_three
      norm_num
      linarith
    · have := Real.pi_gt_three
      norm_num
      linarith
  rw [hw, hpi] at hone
  exact lt_irrefl 0 hone

/-- C4 counterexample: with the default instances and elapsed time t = π, the
update rule gives instance 0 the rotation `from_rotation_y(π / π)`, a rotation
by 1 radian about +Y — not the claimed half-turn (rotation by π radians). -/
theorem half_turn_claim_counterexample :
    (updateInstances Real.pi defaultInstances).head?.map Prod.snd ≠
      some (Quat.fromRotationY Real.pi) := by
  simp only [updateInstances, defaultInstances, List.head?_cons, Option.map_some]
  rw [div_self Real.pi_ne_zero]
  intro h
  exact fromRotationY_one_ne_pi (Option.some.inj h)

/-- C4 amended: with the 3 default instances and elapsed time advanced to
t = π, instance 0's rotation is a rotation about +Y by π / π = 1 radian (per
the update rule, each tick entry 0's rotation is a rotation about the world-up
axis by elapsed_seconds / π radians), and instances 1 and 2 keep the identity
rotation. -/
theorem rotation_at_pi :
    updateInstances Real.pi defaultInstances =
      [(⟨0, 0, 1⟩, Quat.fromRotationY 1),
       (⟨1, 0, 2⟩, qIdentity), (⟨-1, 0, 2⟩, qIdentity)] ∧
    ∀ t : ℝ, (updateInstances t defaultInstances).head?.map Prod.snd =
      some (Quat.fromRotationY (t / Real.pi)) := by
  constructor
  · simp [updateInstances, defaultInstances, div_self Real.pi_ne_zero]
  · intro t
    simp [updateInstances, defaultInstances]

/-- Matrix-times-vector distributes over the matrix product. -/
theorem mulVec4_mul (a b : Mat4) (v : Vec4) :
    (Mat4.mul a b).mulVec4 v = a.mulVec4 (b.mulVec4 v) := by
  ext <;> simp [Mat4.mul, Mat4.mulVec4] <;> ring

/-- The instance transform is exactly translate ∘ rotate ∘ scale(1,1,1). -/
theorem transform_eq_trs (t : Vec3) (r : Quat) :
    instanceTransform (t, r) =
      Mat4.mul (fromTranslation t) (Mat4.mul (fromQuat r) (fromScale ⟨1, 1, 1⟩)) := by
  ext <;>
    simp [instanceTransform, from_scale_rotation_translation, mat3FromQuat,
      Mat4.mul, Mat4.mulVec4, fromTranslation, fromQuat, fromScale]

/-- For a unit quaternion the instance transform has determinant 1. -/
theorem det_instanceTransform (t : Vec3) (r : Quat)
    (h : r.x ^ 2 + r.y ^ 2 + r.z ^ 2 + r.w ^ 2 = 1) :
    (instanceTransform (t, r)).det = 1 := by
  simp only [instanceTransform, from_scale_rotation_translation, mat3FromQuat,
    Mat4.det]
  linear_combination (4 * (r.x ^ 2 + r.y ^ 2 + r.z ^ 2)) * h

/-- For a unit quaternion the decomposition recovers scale (1,1,1) exactly. -/
theorem decomposeScale_eq (t : Vec3) (r : Quat)
    (h : r.x ^ 2 + r.y ^ 2 + r.z ^ 2 + r.w ^ 2 = 1) :
    decomposeScale (instanceTransform (t, r)) = ⟨1, 1, 1⟩ := by
  have hdet := det_instanceTransform t r h
  have hx : dot4 (instanceTransform (t, r)).xAxis
      (instanceTransform (t, r)).xAxis = 1 := by
    simp only [instanceTransform, from_scale_rotation_translation,
      mat3FromQuat, dot4]
    linear_combination (4 * (r.y ^ 2 + r.z ^ 2)) * h
  have hy : dot4 (instanceTransform (t, r)).yAxis
      (instanceTransform (t, r)).yAxis = 1 := by
    simp only [instanceTransform, from_scale_rotation_translation,
      mat3FromQuat, dot4]
    linear_combination (4 * (r.x ^ 2 + r.z ^ 2)) * h
  have hz : dot4 (instanceTransform (t, r)).zAxis
      (instanceTransform (t, r)).zAxis = 1 := by
    simp only [instanceTransform, from_scale_rotation_translation,
      mat3FromQuat, dot4]
    linear_combination (4 * (r.x ^ 2 + r.y ^ 2)) * h
  simp only [decomposeScale, length4, hx, hy, hz, hdet, Real.sqrt_one, signum]
  norm_num

/-- For a unit quaternion the decomposition recovers the rotation matrix of
the quaternion exactly. -/
theorem decomposeRotation_eq (t : Vec3) (r : Quat)
    (h : r.x ^ 2 + r.y ^ 2 + r.z ^ 2 + r.w ^ 2 = 1) :
    decomposeRotationMat (instanceTransform (t, r)) = mat3FromQuat r := by
  simp only [decomposeRotationMat, decomposeScale_eq t r h]
  ext <;>
    simp [smul3, instanceTransform, from_scale_rotation_translation,
      mat3FromQuat]

/-- C6: for any translation and any (unit) rotation quaternion, the
per-instance transform equals translate ∘ rotate ∘ scale(1,1,1); decomposing
it recovers the translation exactly, scale (1,1,1) exactly and the rotation's
matrix exactly; and the serialization places entry (row i, column c) of the
matrix at flat index 4·c + i, i.e. it is column-major. -/
theorem transform_trs_decompose (t : Vec3) (r : Quat)
    (h : r.x ^ 2 + r.y ^ 2 + r.z ^ 2 + r.w ^ 2 = 1) :
    instanceTransform (t, r) =
      Mat4.mul (fromTranslation t) (Mat4.mul (fromQuat r) (fromScale ⟨1, 1, 1⟩)) ∧
    decomposeTranslation (instanceTransform (t, r)) = t ∧
    decomposeScale (instanceTransform (t, r)) = ⟨1, 1, 1⟩ ∧
    decomposeRotationMat (instanceTransform (t, r)) = mat3FromQuat r ∧
    ∀ c i : Fin 4,
      (toColsArray (instanceTransform (t, r))).get
          ⟨4 * (c : ℕ) + (i : ℕ), by
            have hc := c.isLt
            have hi := i.isLt
            simp only [toColsArray, List.length_cons, List.length_nil]
            omega⟩ =
        Vec4.comp (Mat4.col (instanceTransform (t, r)) c) i := by
  refine ⟨transform_eq_trs t r, rfl, decomposeScale_eq t r h,
    decomposeRotation_eq t r h, ?_⟩
  intro c i
  fin_cases c <;> fin_cases i <;> rfl

theorem transform_trs_decompose_witness :
    (qIdentity.x ^ 2 + qIdentity.y ^ 2 + qIdentity.z ^ 2 + qIdentity.w ^ 2
        = (1 : ℝ)) ∧
    instanceTransform (⟨1, 2, 3⟩, qIdentity) =
      Mat4.mul (fromTranslation ⟨1, 2, 3⟩)
        (Mat4.mul (fromQuat qIdentity) (fromScale ⟨1, 1, 1⟩)) ∧
    decomposeTranslation (instanceTransform (⟨1, 2, 3⟩, qIdentity)) = ⟨1, 2, 3⟩ ∧
    decomposeScale (instanceTransform (⟨1, 2, 3⟩, qIdentity)) = ⟨1, 1, 1⟩ ∧
    decomposeRotationMat (instanceTransform (⟨1, 2, 3⟩, qIdentity)) =
      mat3FromQuat qIdentity ∧
    (toColsArray (instanceTransform (⟨1, 2, 3⟩, qIdentity))).get
        ⟨12, by simp only [toColsArray, List.length_cons, List.length_nil]; omega⟩ =
      Vec4.comp (Mat4.col (instanceTransform (⟨1, 2, 3⟩, qIdentity)) 3) 0 := by
  have h : qIdentity.x ^ 2 + qIdentity.y ^ 2 + qIdentity.z ^ 2 +
      qIdentity.w ^ 2 = (1 : ℝ) := by
    norm_num [qIdentity]
  obtain ⟨h1, h2, h3, h4, h5⟩ := transform_trs_decompose ⟨1, 2, 3⟩ qIdentity h
  exact ⟨h, h1, h2, h3, h4, h5 3 0⟩

/-- The camera configuration claim C9 speaks about: eye (0,0,-1), target
(0,0,1), up +Y, the window's aspect ratio, 90 degrees (converted to radians)
of vertical fov, near 0.05, far 1000. -/
noncomputable def c9Camera (a : ℝ) : PerspectiveCamera :=
  ⟨⟨0, 0, -1⟩, ⟨0, 0, 1⟩, ⟨0, 1, 0⟩, a, 90 * (Real.pi / 180), 0.05, 1000⟩

/-- The clip-space image of the world point (0,0,1) under that camera's
view-projection matrix. -/
noncomputable def c9Clip (a : ℝ) : Vec4 :=
  ((c9Camera a).to_view_proj_matrix).mulVec4 ⟨0, 0, 1, 1⟩

/-- The C9 camera's view matrix maps the world point (0,0,1) to the
view-space point (0,0,-2): two units in front of the eye. -/
theorem lookAt_c9_apply :
    (lookAtRh ⟨0, 0, -1⟩ ⟨0, 0, 1⟩ ⟨0, 1, 0⟩).mulVec4 ⟨0, 0, 1, 1⟩ =
      ⟨0, 0, -2, 1⟩ := by
  have hf : normalize3 (sub3 ⟨0, 0, 1⟩ ⟨0, 0, -1⟩) = ⟨0, 0, 1⟩ := by
    apply Vec3.ext <;> simp [sub3, normalize3, dot3, smul3]
  have hs : normalize3 (cross3 ⟨0, 0, 1⟩ ⟨0, 1, 0⟩) = ⟨-1, 0, 0⟩ := by
    apply Vec3.ext <;> simp [cross3, normalize3, dot3, smul3]
  simp only [lookAtRh, lookToRh]
  rw [hf, hs]
  apply Vec4.ext <;> simp [cross3, dot3, Mat4.mulVec4] <;> norm_num

/-- C9: for the camera with target (0,0,1), up +Y, eye (0,0,-1), 90 degree
vertical fov, any window aspect ratio, near 0.05 and far 1000, the
view-projection matrix (perspective times look-at) sends the world point
(0,0,1) to clip coordinates with x = 0 and y = 0, and its depth z/w lies
within [0, 1]. -/
theorem view_proj_centered_and_in_depth_range (a : ℝ) :
    (c9Clip a).x = 0 ∧ (c9Clip a).y = 0 ∧
    0 ≤ (c9Clip a).z / (c9Clip a).w ∧ (c9Clip a).z / (c9Clip a).w ≤ 1 := by
  have hclip : c9Clip a =
      (perspectiveRh (90 * (Real.pi / 180)) a 0.05 1000).mulVec4
        ⟨0, 0, -2, 1⟩ := by
    simp only [c9Clip, c9Camera, PerspectiveCamera.to_view_proj_matrix]
    rw [mulVec4_mul, lookAt_c9_apply]
  refine ⟨?_, ?_, ?_, ?_⟩ <;>
    (rw [hclip]; simp [perspectiveRh, Mat4.mulVec4]) <;> norm_num

end WgpuExample
